import Mathlib

/-! Verification development for the Xweather MCP bridge
(`src/mcp_client.py`, `src/weather_assistant.py`).

Python strings are modelled as `List Char` (`Str`), JSON documents as the
inductive `Json`, and each raise site of the protocol client as a
constructor of `MCPErr` carrying the data interpolated at that site.
Fallible Python code is modelled with `Except`/`Option`. -/

/-- Python strings, modelled as lists of characters. -/
abbrev Str := List Char

/-- Shorthand to turn a Lean string literal into `Str`. -/
def S (s : String) : Str := s.toList

/-- ASCII whitespace as stripped by Python `str.lstrip()` / `str.strip()`. -/
def pyWs (c : Char) : Bool :=
  c = ' ' ∨ c = '\t' ∨ c = '\n' ∨ c = '\r' ∨ c = '\x0b' ∨ c = '\x0c'

/-- Python `s.lstrip()` (no argument): drop all leading whitespace. -/
def pyLstrip (s : Str) : Str := s.dropWhile pyWs

/-- Python `s.strip() == ""`: the line consists only of whitespace. -/
def isBlankLine (s : Str) : Bool := s.all pyWs

/-- JSON documents as produced by Python `json.loads`.  Numbers are modelled
as integers (no claim depends on non-integral numerics); objects keep the
insertion order of Python dicts. -/
inductive Json where
  | null : Json
  | bool (b : Bool) : Json
  | num (n : Int) : Json
  | str (s : Str) : Json
  | arr (xs : List Json) : Json
  | obj (fields : List (Str × Json)) : Json

/-- First-match association-list lookup, modelling Python `dict.get` on the
decoded objects. -/
def alookup : List (Str × Json) → Str → Option Json
  | [], _ => none
  | (k, v) :: rest, key => if k = key then some v else alookup rest key

/-- Python `dict.get` on a decoded JSON object; `none` when the document is
not an object or the key is absent. -/
def jget (doc : Json) (key : Str) : Option Json :=
  match doc with
  | .obj fields => alookup fields key
  | _ => none

/-- Python truthiness of a decoded JSON value: `None`, `False`, `0`, `""`,
`[]` and `\x7b\x7d` are falsy; everything else is truthy. -/
def truthy : Json → Bool
  | .null => false
  | .bool b => b
  | .num n => n ≠ 0
  | .str s => s ≠ []
  | .arr xs => !xs.isEmpty
  | .obj fields => !fields.isEmpty

/-- Whether a JSON value is an array (Python `isinstance(x, list)`). -/
def Json.isArr : Json → Bool
  | .arr _ => true
  | _ => false

/-- Whether a JSON value is an object (Python `isinstance(x, dict)`). -/
def Json.isObj : Json → Bool
  | .obj _ => true
  | _ => false

/-- Lowercase hexadecimal digit, as used by `json.dumps` escapes. -/
def hexDigit (n : Nat) : Char :=
  if n < 10 then Char.ofNat (48 + n) else Char.ofNat (87 + n)

/-- Four lowercase hex digits of a code point below 0x10000. -/
def hex4 (n : Nat) : Str :=
  [hexDigit (n / 4096 % 16), hexDigit (n / 256 % 16),
   hexDigit (n / 16 % 16), hexDigit (n % 16)]

/-- Escape one character the way `json.dumps` (with its default
`ensure_ascii=True`) renders characters inside a quoted string. -/
def pyEscapeChar (c : Char) : Str :=
  if c = '"' then ['\\', '"']
  else if c = '\\' then ['\\', '\\']
  else if c = '\n' then ['\\', 'n']
  else if c = '\r' then ['\\', 'r']
  else if c = '\t' then ['\\', 't']
  else if c = '\x08' then ['\\', 'b']
  else if c = '\x0c' then ['\\', 'f']
  else if 0x20 ≤ c.toNat ∧ c.toNat ≤ 0x7e then [c]
  else if c.toNat < 0x10000 then '\\' :: 'u' :: hex4 c.toNat
  else
    let n := c.toNat - 0x10000
    ('\\' :: 'u' :: hex4 (0xd800 + n / 0x400)) ++ ('\\' :: 'u' :: hex4 (0xdc00 + n % 0x400))

/-- The `json.dumps` rendering of a string value: quoted and escaped. -/
def pyQuote (s : Str) : Str :=
  '"' :: (s.flatMap pyEscapeChar) ++ ['"']

/-- `n` spaces, for the `indent=2` layout of `json.dumps`. -/
def nspaces (n : Nat) : Str := List.replicate n ' '

mutual

/-- `json.dumps(j, indent=2)` at nesting level `lvl` (0 at the top). -/
def dumpJson (lvl : Nat) : Json → Str
  | .null => S "null"
  | .bool true => S "true"
  | .bool false => S "false"
  | .num n => S (toString n)
  | .str s => pyQuote s
  | .arr [] => S "[]"
  | .arr (x :: xs) =>
      '[' :: '\n' :: (nspaces (2 * (lvl + 1)) ++ dumpJson (lvl + 1) x
        ++ dumpArrRest (lvl + 1) xs ++ '\n' :: nspaces (2 * lvl) ++ [']'])
  | .obj [] => ['\x7b', '\x7d']
  | .obj ((k, v) :: fs) =>
      '\x7b' :: '\n' :: (nspaces (2 * (lvl + 1)) ++ pyQuote k ++ ':' :: ' ' :: dumpJson (lvl + 1) v
        ++ dumpObjRest (lvl + 1) fs ++ '\n' :: nspaces (2 * lvl) ++ ['\x7d'])

/-- Remaining array items, each on its own indented line after a comma. -/
def dumpArrRest (lvl : Nat) : List Json → Str
  | [] => []
  | x :: xs => ',' :: '\n' :: (nspaces (2 * lvl) ++ dumpJson lvl x ++ dumpArrRest lvl xs)

/-- Remaining object entries, each on its own indented line after a comma. -/
def dumpObjRest (lvl : Nat) : List (Str × Json) → Str
  | [] => []
  | (k, v) :: fs =>
      ',' :: '\n' :: (nspaces (2 * lvl) ++ pyQuote k ++ ':' :: ' ' :: dumpJson lvl v
        ++ dumpObjRest lvl fs)

end

/-- `json.dumps(j, indent=2)`, the pretty-printed dump used in error
previews and in the `extract_text` fallback. -/
def pydumps (j : Json) : Str := dumpJson 0 j

/-- The failure taxonomy of the protocol client: one constructor per raise
site of `MCP` in `src/mcp_client.py`, carrying the data interpolated into
the corresponding message, plus `pyAttrError` for the uncaught Python
`AttributeError` raised when a truthy `error` field is not an object. -/
inductive MCPErr where
  | invalidEnvelope (preview : Str) : MCPErr
  | remoteError (code : Option Json) (message : Option Json) : MCPErr
  | missingResult : MCPErr
  | invalidToolsShape (preview : Str) : MCPErr
  | unexpectedContentType (ctype : Str) (preview : Str) : MCPErr
  | noDataPayload : MCPErr
  | sseDataNotJson : MCPErr
  | pyAttrError : MCPErr

/-- The guard of `_unwrap_jsonrpc`: the document is a dict whose
`jsonrpc` entry equals the string `2.0`. -/
def isJsonrpc20 (doc : Json) : Bool :=
  match jget doc (S "jsonrpc") with
  | some (.str s) => s = S "2.0"
  | _ => false

/-- `MCP._unwrap_jsonrpc` (src/mcp_client.py lines 90-100): envelope
validation producing the `result` object or a failure. -/
def unwrap_jsonrpc (doc : Json) : Except MCPErr Json :=
  if !isJsonrpc20 doc then
    .error (.invalidEnvelope ((pydumps doc).take 800))
  else if truthy ((jget doc (S "error")).getD .null) then
    match (jget doc (S "error")).getD .null with
    | .obj efields =>
        .error (.remoteError (alookup efields (S "code")) (alookup efields (S "message")))
    | _ => .error .pyAttrError
  else
    match jget doc (S "result") with
    | some (.obj rfields) => .ok (.obj rfields)
    | _ => .error .missingResult

/-- `MCP.list_tools` (src/mcp_client.py lines 29-34) applied to the
validated result `res` of the `tools/list` RPC. -/
def list_tools (res : Json) : Except MCPErr (List Json) :=
  match jget res (S "tools") with
  | none => .ok []
  | some (.arr xs) => .ok xs
  | some _ => .error (.invalidToolsShape ((pydumps res).take 800))

/-- The body preview used in client errors: first 600 characters, or a
sentinel when the body is empty. -/
def bodyPreview (text : Str) : Str :=
  if text.isEmpty then S "<empty body>" else text.take 600

/-- The unrecognized-content-type fallback of `MCP._rpc`
(src/mcp_client.py lines 82-88).  `parsed` is the outcome of `r.json()`;
the entire `try` body, including envelope validation, is covered by the
`except Exception` that raises the unexpected-content-type error. -/
def rpc_fallback (parsed : Option Json) (bodyText : Str) (ctype : Str) : Except MCPErr Json :=
  match parsed with
  | some doc =>
      match unwrap_jsonrpc doc with
      | .ok res => .ok res
      | .error _ => .error (.unexpectedContentType ctype (bodyPreview bodyText))
  | none => .error (.unexpectedContentType ctype (bodyPreview bodyText))

/-- The characters of the literal `data:` checked by `line.startswith`. -/
def dataPrefix : Str := ['d', 'a', 't', 'a', ':']

/-- One step of the line scan in `MCP._parse_sse_to_json`
(src/mcp_client.py lines 112-124).  The state is the pair
`(data_buf, last_data)`; the input is one line of the response body as
produced by `splitlines`. -/
def sseStep (st : List Str × Option Str) (line : Str) : List Str × Option Str :=
  if [':'].isPrefixOf line then st
  else if dataPrefix.isPrefixOf line then
    (st.1 ++ [pyLstrip (line.drop 5)], st.2)
  else if isBlankLine line then
    if st.1.isEmpty then st else ([], some (List.intercalate ['\n'] st.1))
  else st

/-- The post-loop capture of a trailing unflushed buffer
(src/mcp_client.py lines 126-128): a nonempty `data_buf` at stream end
becomes the last payload. -/
def sseFinal (st : List Str × Option Str) : Option Str :=
  if st.1.isEmpty then st.2 else some (List.intercalate ['\n'] st.1)

/-- The `last_data` value after the scan of `MCP._parse_sse_to_json`,
including the post-loop capture of a trailing unflushed buffer
(src/mcp_client.py lines 108-128). -/
def sseLastData (lines : List Str) : Option Str :=
  sseFinal (lines.foldl sseStep ([], none))

/-- `MCP._parse_sse_to_json` (src/mcp_client.py lines 102-136), with the
library JSON parser abstracted as `jparse`.  A `last_data` of `None` and a
`last_data` equal to the empty string both fail the Python truthiness test
`if not last_data` and raise the no-data-payload error. -/
def parse_sse_to_json (jparse : Str → Option Json) (lines : List Str) : Except MCPErr Json :=
  match sseLastData lines with
  | none => .error .noDataPayload
  | some s =>
      if s.isEmpty then .error .noDataPayload
      else
        match jparse s with
        | some j => .ok j
        | none => .error .sseDataNotJson

/-- `MCP._next_id` (src/mcp_client.py lines 23-25): increment the counter,
then return it.  The pair is (new counter state, returned id). -/
def next_id (ctr : Nat) : Nat × Nat := (ctr + 1, ctr + 1)

/-- The ids carried by `n` successive requests of one client whose counter
currently holds `ctr` (`MCP.__init__` seeds it at 0; `MCP._rpc` draws
`_next_id()` once per request). -/
def requestIds (ctr : Nat) : Nat → List Nat
  | 0 => []
  | n + 1 =>
      let (ctr1, i) := next_id ctr
      i :: requestIds ctr1 n

/-- The iterable Python draws `result.get("content", [])` from in
`extract_text`: array elements when `content` is an array; iterating a
dict or a string yields keys or characters, none of which pass the
`isinstance(c, dict)` filter, so those cases contribute no parts.
(`content` of type `None`/bool/number would raise `TypeError` in Python;
the claims only concern list-shaped or absent `content`.) -/
def contentParts (result : Json) : List Json :=
  match jget result (S "content") with
  | some (.arr xs) => xs
  | _ => []

/-- The per-part filter and text extraction of `extract_text`
(src/weather_assistant.py line 40): keep dict parts whose `type` is the
string `text`, taking their `text` entry with default empty string.  A
non-string `text` value would make the later `join` raise `TypeError` in
Python; it is treated as the empty string here, and no claim touches that
case. -/
def partText (c : Json) : Option Str :=
  match c with
  | .obj fields =>
      match alookup fields (S "type") with
      | some (.str t) =>
          if t = S "text" then
            some (match alookup fields (S "text") with
                  | some (.str s) => s
                  | _ => [])
          else none
      | _ => none
  | _ => none

/-- `extract_text` (src/weather_assistant.py lines 37-41): join the truthy
text parts with newlines, or fall back to the pretty JSON dump of the
whole result when that join is falsy. -/
def extract_text (result : Json) : Str :=
  let parts := (contentParts result).filterMap partText
  let joined := List.intercalate ['\n'] (parts.filter (fun p => !p.isEmpty))
  if joined.isEmpty then pydumps result else joined

/-- A tool call as emitted by the chat backend: `tc.id`,
`tc.function.name` and the raw argument string `tc.function.arguments`. -/
structure ToolCall where
  id : Str
  name : Str
  args : Str
deriving DecidableEq

/-- One assistant message returned by a chat-completion call: optional
text content and the (possibly empty) list of requested tool calls.
Python treats both a `None` and an empty `tool_calls` as absent. -/
structure ModelMsg where
  content : Option Str
  tool_calls : List ToolCall
deriving DecidableEq

/-- One entry of the `messages` list owned by `WeatherAssistant.ask`. -/
inductive ChatMsg where
  | system (text : Str) : ChatMsg
  | user (text : Str) : ChatMsg
  | assistant (m : ModelMsg) : ChatMsg
  | tool (callId : Str) (text : Str) : ChatMsg
deriving DecidableEq

/-- The body of `for tc in msg.tool_calls` (src/weather_assistant.py
lines 92-109): `jloads` models `json.loads` on the argument string
(`.error` carries the `JSONDecodeError` text) and `mcp` models
`MCP.call_tool` (`.error` carries `str(e)` for the raised exception).
Returns the appended tool message together with the protocol-client
invocation made for this call, if any. -/
def toolCallStep (jloads : Str → Except Str Json) (mcp : Str → Json → Except Str Json)
    (tc : ToolCall) : ChatMsg × Option (Str × Json) :=
  match jloads tc.args with
  | .error e => (.tool tc.id (S "Bad args: " ++ e), none)
  | .ok fargs =>
      match mcp tc.name fargs with
      | .ok result => (.tool tc.id (extract_text result), some (tc.name, fargs))
      | .error e =>
          (.tool tc.id (S "Error calling " ++ tc.name ++ S ": " ++ e), some (tc.name, fargs))

/-- The whole per-round tool loop of `ask`: process the requested calls in
order, appending one tool message per call to `msgs` and recording each
protocol-client invocation in `invs`. -/
def processRound (jloads : Str → Except Str Json) (mcp : Str → Json → Except Str Json)
    (msgs : List ChatMsg) (invs : List (Str × Json)) :
    List ToolCall → List ChatMsg × List (Str × Json)
  | [] => (msgs, invs)
  | tc :: rest =>
      let (m, inv) := toolCallStep jloads mcp tc
      processRound jloads mcp (msgs ++ [m]) (invs ++ inv.toList) rest

/-- The fixed system prompt of `WeatherAssistant.ask`. -/
def sysPrompt : Str :=
  S "You are a helpful weather assistant with access to Xweather tools."

/-- The `for _ in range(2)` loop of `ask` (src/weather_assistant.py
lines 88-117).  `backend k` is the assistant message returned by the
chat-completion call number `k` (counting from 0); `calls` is the number
of chat-completion calls made so far.  Returns the final assistant
message, the message list, the call count and the invocation log. -/
def askLoop (backend : Nat → ModelMsg) (jloads : Str → Except Str Json)
    (mcp : Str → Json → Except Str Json) :
    Nat → ModelMsg → List ChatMsg → Nat → List (Str × Json) →
    ModelMsg × List ChatMsg × Nat × List (Str × Json)
  | 0, msg, msgs, calls, invs => (msg, msgs, calls, invs)
  | fuel + 1, msg, msgs, calls, invs =>
      if msg.tool_calls.isEmpty then (msg, msgs, calls, invs)
      else
        let (msgs1, invs1) := processRound jloads mcp msgs invs msg.tool_calls
        let msg1 := backend calls
        askLoop backend jloads mcp fuel msg1 (msgs1 ++ [.assistant msg1]) (calls + 1) invs1

/-- The outcome of one `ask` invocation: the returned answer, the number
of chat-completion calls made, the final message list and the log of
protocol-client invocations. -/
structure AskResult where
  answer : Str
  calls : Nat
  messages : List ChatMsg
  invocations : List (Str × Json)

/-- `msg.content or "(no content)"` (src/weather_assistant.py line 119):
Python falsiness maps both an absent and an empty content to the
placeholder. -/
def contentOrPlaceholder (m : ModelMsg) : Str :=
  match m.content with
  | some c => if c.isEmpty then S "(no content)" else c
  | none => S "(no content)"

/-- `WeatherAssistant.ask` (src/weather_assistant.py lines 71-119):
system + user messages, a first chat-completion call, then up to two
additional rounds, returning `msg.content or "(no content)"`. -/
def ask (backend : Nat → ModelMsg) (jloads : Str → Except Str Json)
    (mcp : Str → Json → Except Str Json) (question : Str) : AskResult :=
  let msgs0 : List ChatMsg := [.system sysPrompt, .user question]
  let msg0 := backend 0
  let r := askLoop backend jloads mcp 2 msg0 (msgs0 ++ [.assistant msg0]) 1 []
  { answer := contentOrPlaceholder r.1
    calls := r.2.2.1
    messages := r.2.1
    invocations := r.2.2.2 }

/-- The amended rendering contract for tool results: join the nonempty
text fields of the `text`-typed parts with newlines, and fall back to the
pretty JSON dump of the whole result exactly when no such nonempty text
exists. -/
def extractTextAmended (result : Json) : Str :=
  let kept := ((contentParts result).filterMap partText).filter (fun p => !p.isEmpty)
  if kept.isEmpty then pydumps result else List.intercalate ['\n'] kept

/-- One line of an SSE event block: a comment line (rendered with a
leading colon) or a data line (rendered with the `data: ` prefix). -/
inductive SseItem where
  | comment (text : Str) : SseItem
  | dataLine (p : Str) : SseItem

/-- The response-body line an `SseItem` stands for. -/
def itemLine : SseItem → Str
  | .comment t => ':' :: t
  | .dataLine p => S "data: " ++ p

/-- The data payload lines of one event, in order. -/
def eventPayloads (items : List SseItem) : List Str :=
  items.filterMap fun it =>
    match it with
    | .dataLine p => some p
    | .comment _ => none

/-- The body lines of one event block, before its blank separator. -/
def eventLines (items : List SseItem) : List Str := items.map itemLine

/-- An SSE response body, as a list of lines: the given event blocks
separated by blank lines, with `tb` saying whether a blank line also
follows the final block. -/
def sseBody : List (List SseItem) → Bool → List Str
  | [], _ => []
  | ev :: rest, tb =>
      eventLines ev ++
        (if rest.isEmpty ∧ !tb then [] else ([] : Str) :: sseBody rest tb)

theorem requestIds_eq_range' (ctr n : Nat) : requestIds ctr n = List.range' (ctr + 1) n := by
  induction n generalizing ctr with
  | zero => rfl
  | succ n ih => simp [requestIds, next_id, List.range'_succ, ih]

/-- C9: the private request-id counter is seeded at 0 and incremented
before each request, so the first request carries id 1, and across any
sequence of requests of one client the ids are exactly 1, 2, ...,
strictly increasing and never reused. -/
theorem c9_request_ids (n : Nat) :
    requestIds 0 n = List.range' 1 n
  ∧ List.Pairwise (· < ·) (requestIds 0 n)
  ∧ (requestIds 0 n).Nodup
  ∧ (0 < n → (requestIds 0 n).head? = some 1) := by
  refine ⟨requestIds_eq_range' 0 n, ?_, ?_, ?_⟩
  · rw [requestIds_eq_range' 0 n]; exact List.pairwise_lt_range' 1 n
  · rw [requestIds_eq_range' 0 n]; exact List.nodup_range' 1 n
  · intro hn
    obtain ⟨m, rfl⟩ := Nat.exists_eq_succ_of_ne_zero (Nat.pos_iff_ne_zero.mp hn)
    rw [requestIds_eq_range' 0 (m + 1), List.range'_succ]
    rfl

theorem c9_request_ids_witness :
    0 < 3 ∧ (requestIds 0 3).head? = some 1 ∧ requestIds 0 3 = List.range' 1 3 :=
  ⟨by decide, (c9_request_ids 3).2.2.2 (by decide), (c9_request_ids 3).1⟩

/-- C10: a last SSE payload captured as the empty string fails the Python
truthiness test exactly like an absent payload: the parser raises the
no-data-payload error. -/
theorem c10_empty_payload_is_no_payload (jparse : Str → Option Json) (lines : List Str)
    (h : sseLastData lines = some []) :
    parse_sse_to_json jparse lines = .error .noDataPayload := by
  simp [parse_sse_to_json, h]

theorem c10_empty_payload_witness :
    sseLastData [S "data:", [], S "data:", []] = some []
  ∧ parse_sse_to_json (fun _ => none) [S "data:", [], S "data:", []] = .error .noDataPayload :=
  ⟨rfl, c10_empty_payload_is_no_payload (fun _ => none) _ rfl⟩

/-- C7 (code evidence): on the single line `data:` + two spaces + `x` the
scanner buffers `x`: the `lstrip()` call removes every leading space, not
just one, so the second space of the payload is not preserved, contrary
to the inline source comment about stripping any one space. -/
theorem c7_lstrip_strips_all_spaces :
    sseLastData [S "data:  x"] = some (S "x") ∧ S "x" ≠ S " x" :=
  ⟨rfl, by decide⟩

/-- C4 counterexample: a response document that contains an `error` field
whose value is JSON null (present but falsy) passes envelope validation
and yields the `result` object instead of a remote-error failure. -/
theorem c4_counterexample :
    jget (Json.obj [(S "jsonrpc", Json.str (S "2.0")), (S "error", Json.null),
        (S "result", Json.obj [])]) (S "error") = some Json.null
  ∧ unwrap_jsonrpc (Json.obj [(S "jsonrpc", Json.str (S "2.0")), (S "error", Json.null),
        (S "result", Json.obj [])]) = .ok (Json.obj []) :=
  ⟨rfl, rfl⟩

/-- C4 (amended): a decoded document that is a valid envelope and whose
`error` field is present and truthy (a nonempty error object) always
yields the remote-error failure carrying the original `code` and
`message` entries, even when a `result` field is also present. -/
theorem c4_truthy_error_yields_remote (fields efields : List (Str × Json))
    (h20 : isJsonrpc20 (Json.obj fields) = true)
    (herr : alookup fields (S "error") = some (Json.obj efields))
    (hne : efields ≠ []) :
    unwrap_jsonrpc (Json.obj fields) =
      .error (.remoteError (alookup efields (S "code")) (alookup efields (S "message"))) := by
  unfold unwrap_jsonrpc
  simp [h20, jget, herr, truthy, hne]

theorem c4_truthy_error_witness :
    unwrap_jsonrpc (Json.obj [(S "jsonrpc", Json.str (S "2.0")),
        (S "error", Json.obj [(S "code", Json.num (-32600)), (S "message", Json.str (S "boom"))]),
        (S "result", Json.obj [(S "ok", Json.bool true)])]) =
      .error (.remoteError (some (Json.num (-32600))) (some (Json.str (S "boom")))) :=
  c4_truthy_error_yields_remote
    [(S "jsonrpc", Json.str (S "2.0")),
     (S "error", Json.obj [(S "code", Json.num (-32600)), (S "message", Json.str (S "boom"))]),
     (S "result", Json.obj [(S "ok", Json.bool true)])]
    [(S "code", Json.num (-32600)), (S "message", Json.str (S "boom"))]
    rfl rfl (List.cons_ne_nil _ _)

/-- C5 counterexample: when the validated `tools/list` result lacks a
`tools` field entirely, `list_tools` silently returns the empty list
instead of failing with an invalid-shape error. -/
theorem c5_counterexample : list_tools (Json.obj []) = .ok [] := rfl

/-- C5 (amended): `list_tools` fails - with the invalid-shape error whose
detail is the pretty-printed dump of the result truncated to at most 800
characters - exactly when the `tools` field is present with a non-list
value: when the field is absent the default empty list is returned, and
when it is present with a list value that list is returned unchanged. -/
theorem c5_tools_shape (fields : List (Str × Json)) :
    (alookup fields (S "tools") = none → list_tools (Json.obj fields) = .ok [])
  ∧ (∀ xs, alookup fields (S "tools") = some (.arr xs) →
      list_tools (Json.obj fields) = .ok xs)
  ∧ (∀ v, alookup fields (S "tools") = some v → v.isArr = false →
      list_tools (Json.obj fields) =
        .error (.invalidToolsShape ((pydumps (Json.obj fields)).take 800))
      ∧ ((pydumps (Json.obj fields)).take 800).length ≤ 800) := by
  refine ⟨?_, ?_, ?_⟩
  · intro h; simp [list_tools, jget, h]
  · intro xs h; simp [list_tools, jget, h]
  · intro v hv hnarr
    refine ⟨?_, List.length_take_le _ _⟩
    cases v <;> simp_all [list_tools, jget, Json.isArr]

theorem c5_tools_shape_witness :
    list_tools (Json.obj [(S "tools", Json.arr [Json.obj [(S "name", Json.str (S "t"))]])]) =
      .ok [Json.obj [(S "name", Json.str (S "t"))]]
  ∧ list_tools (Json.obj [(S "tools", Json.null)]) =
      .error (.invalidToolsShape ((pydumps (Json.obj [(S "tools", Json.null)])).take 800))
  ∧ ((pydumps (Json.obj [(S "tools", Json.null)])).take 800).length ≤ 800 :=
  ⟨(c5_tools_shape [(S "tools", Json.arr [Json.obj [(S "name", Json.str (S "t"))]])]).2.1
      [Json.obj [(S "name", Json.str (S "t"))]] rfl,
   ((c5_tools_shape [(S "tools", Json.null)]).2.2 Json.null rfl rfl).1,
   ((c5_tools_shape [(S "tools", Json.null)]).2.2 Json.null rfl rfl).2⟩

/-- C8 counterexample: under an unrecognized content-type, a body that
parses as JSON and forms a valid error envelope is reported as an
unexpected-content-type failure - the blanket `except Exception` around
the fallback also swallows the envelope-validation failure - and not as a
remote error. -/
theorem c8_counterexample :
    rpc_fallback (some (Json.obj [(S "jsonrpc", Json.str (S "2.0")),
        (S "error", Json.obj [(S "code", Json.num 1), (S "message", Json.str (S "x"))])]))
      (S "body") (S "text/plain") =
      .error (.unexpectedContentType (S "text/plain") (S "body")) := rfl

/-- C8 (amended): under an unrecognized content-type the codec attempts a
JSON parse of the body as a last resort and the parsed document undergoes
envelope validation, but every failure of this path - JSON parse failure
and envelope-validation failure alike - is reported as the
unexpected-content-type error carrying a body preview of at most 600
characters; only a fully valid envelope returns its result. -/
theorem c8_fallback_behavior (parsed : Option Json) (bodyText ctype : Str) :
    (parsed = none →
      rpc_fallback parsed bodyText ctype =
        .error (.unexpectedContentType ctype (bodyPreview bodyText)))
  ∧ (∀ doc res, parsed = some doc → unwrap_jsonrpc doc = .ok res →
      rpc_fallback parsed bodyText ctype = .ok res)
  ∧ (∀ doc e, parsed = some doc → unwrap_jsonrpc doc = .error e →
      rpc_fallback parsed bodyText ctype =
        .error (.unexpectedContentType ctype (bodyPreview bodyText)))
  ∧ (bodyPreview bodyText).length ≤ 600 := by
  refine ⟨?_, ?_, ?_, ?_⟩
  · intro h; simp [rpc_fallback, h]
  · intro doc res hp hu; simp [rpc_fallback, hp, hu]
  · intro doc e hp hu; simp [rpc_fallback, hp, hu]
  · unfold bodyPreview
    split
    · decide
    · exact List.length_take_le _ _

theorem c8_fallback_witness :
    rpc_fallback none (S "oops") (S "text/html") =
      .error (.unexpectedContentType (S "text/html") (bodyPreview (S "oops")))
  ∧ rpc_fallback (some (Json.obj [(S "jsonrpc", Json.str (S "2.0")),
      (S "result", Json.obj [])])) (S "oops") (S "text/html") = .ok (Json.obj []) :=
  ⟨(c8_fallback_behavior none (S "oops") (S "text/html")).1 rfl,
   (c8_fallback_behavior _ (S "oops") (S "text/html")).2.1 _ _ rfl rfl⟩

/-- A tool result whose only content part is text-typed but carries an
empty text field. -/
def emptyTextResult : Json :=
  Json.obj [(S "content", Json.arr
    [Json.obj [(S "type", Json.str (S "text")), (S "text", Json.str [])]])]

/-- The example tool result of the claim: text `A`, an image part, then
text `B`. -/
def abExampleResult : Json :=
  Json.obj [(S "content", Json.arr
    [Json.obj [(S "type", Json.str (S "text")), (S "text", Json.str (S "A"))],
     Json.obj [(S "type", Json.str (S "image"))],
     Json.obj [(S "type", Json.str (S "text")), (S "text", Json.str (S "B"))]])]

theorem intercalate_newline_isEmpty (l : List Str) (h : ∀ x ∈ l, x.isEmpty = false) :
    (List.intercalate ['\n'] l).isEmpty = l.isEmpty := by
  cases l with
  | nil => rfl
  | cons x rest =>
    have hx := h x (List.mem_cons_self x rest)
    cases rest with
    | nil => simp [List.intercalate, hx]
    | cons y rest2 => simp [List.intercalate, hx]

/-- C6 counterexample: on a result whose content holds one text-typed
part with empty text, a text-typed part exists, yet `extract_text`
returns the pretty dump of the whole result (a nonempty string, not the
empty concatenation of the text parts). -/
theorem c6_counterexample :
    ((contentParts emptyTextResult).filterMap partText).length = 1
  ∧ extract_text emptyTextResult = pydumps emptyTextResult
  ∧ pydumps emptyTextResult ≠ [] :=
  ⟨rfl, rfl, by decide⟩

/-- C6 (amended): `extract_text` returns the newline-join of the nonempty
text fields of the text-typed content parts, in order, and falls back to
the pretty-printed dump of the whole result exactly when no text-typed
part carries nonempty text; on the content A / image / B it returns the
two texts joined by a newline. -/
theorem c6_extract_text_amended :
    (∀ result, extract_text result = extractTextAmended result)
  ∧ extract_text abExampleResult = S "A\nB" := by
  constructor
  · intro result
    simp only [extract_text, extractTextAmended]
    rw [intercalate_newline_isEmpty]
    intro x hx
    simpa using (List.mem_filter.mp hx).2
  · rfl

/-- C1: every run of `ask` makes at most 3 chat-completion calls in total
(the first call plus at most 2 additional rounds); when the first two
responses both request tool calls, exactly 3 calls are made and `ask`
returns the third response rendered by the placeholder rule, regardless
of whether that third response still requests tool calls. -/
theorem c1_round_cap (backend : Nat → ModelMsg) (jloads : Str → Except Str Json)
    (mcp : Str → Json → Except Str Json) (q : Str) :
    (ask backend jloads mcp q).calls ≤ 3
  ∧ ((backend 0).tool_calls.isEmpty = false → (backend 1).tool_calls.isEmpty = false →
      (ask backend jloads mcp q).calls = 3
      ∧ (ask backend jloads mcp q).answer = contentOrPlaceholder (backend 2)) := by
  by_cases h0 : (backend 0).tool_calls.isEmpty <;>
    by_cases h1 : (backend 1).tool_calls.isEmpty <;>
      simp [ask, askLoop, h0, h1]

theorem c1_round_cap_witness :
    (ask
      (fun k => if k = 0 then ⟨some (S "t0"), [⟨S "1", S "f", S "x"⟩]⟩
        else if k = 1 then ⟨some (S "t1"), [⟨S "2", S "f", S "x"⟩]⟩
        else ⟨some (S "final"), [⟨S "3", S "f", S "x"⟩]⟩)
      (fun _ => .ok (Json.obj [])) (fun _ _ => .ok (Json.obj [])) (S "q")).calls = 3
  ∧ (ask
      (fun k => if k = 0 then ⟨some (S "t0"), [⟨S "1", S "f", S "x"⟩]⟩
        else if k = 1 then ⟨some (S "t1"), [⟨S "2", S "f", S "x"⟩]⟩
        else ⟨some (S "final"), [⟨S "3", S "f", S "x"⟩]⟩)
      (fun _ => .ok (Json.obj [])) (fun _ _ => .ok (Json.obj [])) (S "q")).answer = S "final" := by
  have h := (c1_round_cap
      (fun k => if k = 0 then ⟨some (S "t0"), [⟨S "1", S "f", S "x"⟩]⟩
        else if k = 1 then ⟨some (S "t1"), [⟨S "2", S "f", S "x"⟩]⟩
        else ⟨some (S "final"), [⟨S "3", S "f", S "x"⟩]⟩)
      (fun _ => .ok (Json.obj [])) (fun _ _ => .ok (Json.obj [])) (S "q")).2 rfl rfl
  exact ⟨h.1, h.2.trans rfl⟩

theorem processRound_spec (jloads : Str → Except Str Json)
    (mcp : Str → Json → Except Str Json) (msgs : List ChatMsg)
    (invs : List (Str × Json)) (tcs : List ToolCall) :
    processRound jloads mcp msgs invs tcs =
      (msgs ++ tcs.map (fun tc => (toolCallStep jloads mcp tc).1),
       invs ++ tcs.flatMap (fun tc => ((toolCallStep jloads mcp tc).2).toList)) := by
  induction tcs generalizing msgs invs with
  | nil => simp [processRound]
  | cons tc rest ih => simp [processRound, ih]

/-- C2: within one round of `ask`, every requested tool call appends
exactly one tool message, in emission order, and processing always
continues over the whole round; a call whose argument string fails to
parse never invokes the protocol client and gets the bad-args diagnostic;
a call whose protocol invocation fails gets the inline
error-calling message; no tool failure aborts the conversation. -/
theorem c2_tool_failures_inline (jloads : Str → Except Str Json)
    (mcp : Str → Json → Except Str Json) (msgs : List ChatMsg)
    (invs : List (Str × Json)) (tcs : List ToolCall) :
    (processRound jloads mcp msgs invs tcs).1
      = msgs ++ tcs.map (fun tc => (toolCallStep jloads mcp tc).1)
  ∧ (processRound jloads mcp msgs invs tcs).2
      = invs ++ tcs.flatMap (fun tc => ((toolCallStep jloads mcp tc).2).toList)
  ∧ (∀ tc e, jloads tc.args = .error e →
      toolCallStep jloads mcp tc = (.tool tc.id (S "Bad args: " ++ e), none))
  ∧ (∀ tc a e, jloads tc.args = .ok a → mcp tc.name a = .error e →
      toolCallStep jloads mcp tc =
        (.tool tc.id (S "Error calling " ++ tc.name ++ S ": " ++ e), some (tc.name, a)))
  ∧ (∀ tc a r, jloads tc.args = .ok a → mcp tc.name a = .ok r →
      toolCallStep jloads mcp tc = (.tool tc.id (extract_text r), some (tc.name, a))) := by
  refine ⟨?_, ?_, ?_, ?_, ?_⟩
  · rw [processRound_spec]
  · rw [processRound_spec]
  · intro tc e he; simp [toolCallStep, he]
  · intro tc a e ha he; simp [toolCallStep, ha, he]
  · intro tc a r ha hr; simp [toolCallStep, ha, hr]

theorem c2_tool_failures_witness :
    (processRound
        (fun s => if s = S "bad" then .error (S "synerr") else .ok (Json.obj []))
        (fun n _ => if n = S "down" then .error (S "offline") else .ok (Json.obj []))
        [] [] [⟨S "1", S "f", S "bad"⟩, ⟨S "2", S "down", S "x"⟩, ⟨S "3", S "g", S "x"⟩]).1
      = [.tool (S "1") (S "Bad args: synerr"),
         .tool (S "2") (S "Error calling down: offline"),
         .tool (S "3") (extract_text (Json.obj []))]
  ∧ (processRound
        (fun s => if s = S "bad" then .error (S "synerr") else .ok (Json.obj []))
        (fun n _ => if n = S "down" then .error (S "offline") else .ok (Json.obj []))
        [] [] [⟨S "1", S "f", S "bad"⟩, ⟨S "2", S "down", S "x"⟩, ⟨S "3", S "g", S "x"⟩]).2
      = [(S "down", Json.obj []), (S "g", Json.obj [])]
  ∧ toolCallStep
        (fun s => if s = S "bad" then .error (S "synerr") else .ok (Json.obj []))
        (fun n _ => if n = S "down" then .error (S "offline") else .ok (Json.obj []))
        ⟨S "1", S "f", S "bad"⟩
      = (.tool (S "1") (S "Bad args: synerr"), none) := by
  have h := c2_tool_failures_inline
      (fun s => if s = S "bad" then .error (S "synerr") else .ok (Json.obj []))
      (fun n _ => if n = S "down" then .error (S "offline") else .ok (Json.obj []))
      [] [] [⟨S "1", S "f", S "bad"⟩, ⟨S "2", S "down", S "x"⟩, ⟨S "3", S "g", S "x"⟩]
  exact ⟨(h.1).trans rfl, (h.2.1).trans rfl, h.2.2.1 ⟨S "1", S "f", S "bad"⟩ (S "synerr") rfl⟩

theorem sseStep_comment (st : List Str × Option Str) (t : Str) :
    sseStep st (':' :: t) = st := by
  simp [sseStep, List.isPrefixOf]

theorem sseStep_data (st : List Str × Option Str) (p : Str) :
    sseStep st (S "data: " ++ p) = (st.1 ++ [pyLstrip p], st.2) := by
  show sseStep st ('d' :: 'a' :: 't' :: 'a' :: ':' :: ' ' :: p) = (st.1 ++ [pyLstrip p], st.2)
  simp [sseStep, List.isPrefixOf, dataPrefix, pyLstrip, List.dropWhile, pyWs]

theorem sseStep_blank (st : List Str × Option Str) :
    sseStep st [] =
      if st.1.isEmpty then st else ([], some (List.intercalate ['\n'] st.1)) := by
  simp [sseStep, List.isPrefixOf, dataPrefix, isBlankLine]

theorem foldl_eventLines (items : List SseItem) (buf : List Str) (last : Option Str) :
    (eventLines items).foldl sseStep (buf, last)
      = (buf ++ (eventPayloads items).map pyLstrip, last) := by
  induction items generalizing buf last with
  | nil => simp [eventLines, eventPayloads]
  | cons it rest ih =>
    cases it with
    | comment t =>
        have h1 : eventLines (SseItem.comment t :: rest) = (':' :: t) :: eventLines rest := rfl
        have h2 : eventPayloads (SseItem.comment t :: rest) = eventPayloads rest := rfl
        rw [h1, List.foldl_cons, sseStep_comment, h2]
        exact ih buf last
    | dataLine p =>
        have h1 : eventLines (SseItem.dataLine p :: rest)
          = (S "data: " ++ p) :: eventLines rest := rfl
        have h2 : eventPayloads (SseItem.dataLine p :: rest) = p :: eventPayloads rest := rfl
        rw [h1, List.foldl_cons, sseStep_data, h2, List.map_cons]
        rw [ih (buf ++ [pyLstrip p]) last]
        simp

theorem sse_last_of_body (events : List (List SseItem)) (lastEv : List SseItem) (tb : Bool)
    (last : Option Str) (hp : eventPayloads lastEv ≠ []) :
    sseFinal ((sseBody (events ++ [lastEv]) tb).foldl sseStep ([], last))
      = some (List.intercalate ['\n'] ((eventPayloads lastEv).map pyLstrip)) := by
  induction events generalizing last with
  | nil =>
    have hmap : ((eventPayloads lastEv).map pyLstrip).isEmpty = false := by
      simp [List.isEmpty_iff, hp]
    cases tb with
    | false =>
      have hbody : sseBody ([] ++ [lastEv]) false = eventLines lastEv := by
        simp [sseBody]
      rw [hbody, foldl_eventLines]
      simp [sseFinal, hmap]
    | true =>
      have hbody : sseBody ([] ++ [lastEv]) true = eventLines lastEv ++ [[]] := by
        simp [sseBody]
      rw [hbody, List.foldl_append, foldl_eventLines]
      simp only [List.foldl_cons, List.foldl_nil, sseStep_blank, List.nil_append]
      simp [hmap, sseFinal]
  | cons ev rest ih =>
    have hne : ((rest ++ [lastEv]).isEmpty) = false := by simp
    have hbody : sseBody ((ev :: rest) ++ [lastEv]) tb
        = eventLines ev ++ ([] : Str) :: sseBody (rest ++ [lastEv]) tb := by
      simp [sseBody, hne]
    rw [hbody, List.foldl_append, foldl_eventLines, List.foldl_cons, sseStep_blank]
    simp only [List.nil_append]
    by_cases hbuf : ((eventPayloads ev).map pyLstrip).isEmpty = true
    · have hnil : (eventPayloads ev).map pyLstrip = [] := by
        simpa [List.isEmpty_iff] using hbuf
      simp only [hnil, List.isEmpty_nil, if_true]
      exact ih last
    · simp only [hbuf, if_false]
      exact ih (some (List.intercalate ['\n'] ((eventPayloads ev).map pyLstrip)))

/-- C3: for every SSE body consisting of any number of events separated
by blank lines, with any number of comment lines interleaved, the codec
returns exactly the JSON parse of the last event's data payload (its data
lines joined by newline), whether or not a blank line follows the final
event - no data loss at stream end.  The payload lines are assumed to
carry no leading whitespace of their own: leading whitespace inside a
data line is removed by the scanner (see the C7 finding) and is in any
case insignificant to a JSON parse. -/
theorem c3_sse_returns_last_event (jparse : Str → Option Json)
    (events : List (List SseItem)) (lastEv : List SseItem) (tb : Bool) (j : Json)
    (hw : (eventPayloads lastEv).map pyLstrip = eventPayloads lastEv)
    (hp : eventPayloads lastEv ≠ [])
    (hne : (List.intercalate ['\n'] (eventPayloads lastEv)).isEmpty = false)
    (hj : jparse (List.intercalate ['\n'] (eventPayloads lastEv)) = some j) :
    parse_sse_to_json jparse (sseBody (events ++ [lastEv]) tb) = .ok j := by
  have h := sse_last_of_body events lastEv tb none hp
  rw [hw] at h
  have hld : sseLastData (sseBody (events ++ [lastEv]) tb)
      = some (List.intercalate ['\n'] (eventPayloads lastEv)) := h
  simp [parse_sse_to_json, hld, hne, hj]

theorem c3_sse_witness :
    parse_sse_to_json
        (fun s => if s = S "tr\nue" then some (Json.bool true) else none)
        (sseBody ([[.comment (S "hb"), .dataLine (S "first")]]
          ++ [[.dataLine (S "tr"), .comment (S "mid"), .dataLine (S "ue")]]) false)
      = .ok (Json.bool true) :=
  c3_sse_returns_last_event
    (fun s => if s = S "tr\nue" then some (Json.bool true) else none)
    [[.comment (S "hb"), .dataLine (S "first")]]
    [.dataLine (S "tr"), .comment (S "mid"), .dataLine (S "ue")]
    false (Json.bool true) rfl (by decide) rfl rfl
